import Mathlib

/-!
# Verification of the SI4735 driver (`src/SI4735.h`)

Shallow embedding of the SI4735 Arduino driver. The repository ships the
header `SI4735.h` only: the union/bit-field frame layouts, the protected
member fields with their initializers, and the inline accessors are taken
directly from that header. Method bodies that live in the (absent) `.cpp`
translation unit are modelled from the specification, and each such
definition is marked `Modelled from the spec:` in its doc comment.

Machine integers are modelled as `Nat` with explicit `% 2^w`
truncation where the width matters.
-/

namespace SI4735

/-! ## Constants from `SI4735.h` -/

/-- `SI473X_ADDR_SEN_LOW` (header line 28): I2C address when SEN pin is low. -/
def SI473X_ADDR_SEN_LOW : Nat := 0x11

/-- `SI473X_ADDR_SEN_HIGH` (header line 29): I2C address when SEN pin is high. -/
def SI473X_ADDR_SEN_HIGH : Nat := 0x63

/-- `MIN_DELAY_WAIT_SEND_LOOP` (header line 157): microseconds waited by each
iteration of the `waitToSend` poll loop. -/
def MIN_DELAY_WAIT_SEND_LOOP : Nat := 300

/-- `MAX_DELAY_AFTER_SET_FREQUENCY` (header line 155), in ms. -/
def MAX_DELAY_AFTER_SET_FREQUENCY : Nat := 30

/-- `MAX_DELAY_AFTER_POWERUP` (header line 156), in ms. -/
def MAX_DELAY_AFTER_POWERUP : Nat := 10

/-! ## `si47x_frequency` (header lines 202-209)

`typedef union \x7b struct \x7b uint8_t FREQL; uint8_t FREQH; \x7d raw; uint16_t value; \x7d`
The union overlays the two raw bytes on the 16-bit `value`; on the AVR/ARM
targets of this library the overlay is little-endian, so `FREQL` is the low
byte of `value` and `FREQH` the high byte. -/

/-- The `raw` view of `si47x_frequency`: the pair (FREQL, FREQH). -/
structure Si47xFrequencyRaw where
  FREQL : Nat
  FREQH : Nat
  deriving DecidableEq, Repr

/-- Writing a 16-bit number through the `value` member of `si47x_frequency`
and reading the `raw` member: low byte into `FREQL`, high byte into `FREQH`. -/
def si47x_frequency_pack (value : Nat) : Si47xFrequencyRaw :=
  { FREQL := value % 256, FREQH := value / 256 % 256 }

/-- Writing the two `raw` bytes of `si47x_frequency` and reading the
16-bit `value` member back. -/
def si47x_frequency_unpack (r : Si47xFrequencyRaw) : Nat :=
  r.FREQL % 256 + 256 * (r.FREQH % 256)

/-! ## `si47x_set_frequency` (header lines 231-244) and the tune round trip

`setFrequency` (declared at header line 977) and `getFrequency`
(header line 981) have their bodies in the absent `.cpp` file. -/

/-- Modelled from the spec: the body of `SI4735::setFrequency` is not under
`src/`. Per the spec (section 8, frequency round-trip; section 3, Command
Frame) it loads the requested 16-bit frequency into the
`si47x_set_frequency` argument bytes, `FREQH` being the ARG2 byte (index 1
of `raw`) and `FREQL` the ARG3 byte (index 2 of `raw`), per the declared
struct at header lines 231-244. The result is the 5-byte argument list. -/
def setFrequencyArgs (flags : Nat) (freq : Nat) (antcapH antcapL : Nat) : List Nat :=
  [flags % 256,
   (si47x_frequency_pack freq).FREQH,
   (si47x_frequency_pack freq).FREQL,
   antcapH % 256,
   antcapL % 256]

/-- The tune-status response fields `READFREQH` (RESP2) and `READFREQL`
(RESP3) of `si47x_response_status` (header lines 311-313), for a device
that is tuned to exactly the frequency bytes of the last tune command:
it echoes ARG2 into `READFREQH` and ARG3 into `READFREQL`. -/
def deviceEchoReadFreq (args : List Nat) : Nat × Nat :=
  (args.getD 1 0, args.getD 2 0)

/-- Modelled from the spec: the body of `SI4735::getFrequency` is not under
`src/`. Per the spec (section 8) it reassembles the 16-bit frequency from
the two response bytes `READFREQH` / `READFREQL` through the
`si47x_frequency` raw view (header lines 202-209). -/
def getFrequencyFrom (readFreqH readFreqL : Nat) : Nat :=
  si47x_frequency_unpack { FREQL := readFreqL, FREQH := readFreqH }

/-! ## Volume (header lines 934, 1343-1347)

The header declares `uint8_t volume = 32;` (line 934) and
`inline uint8_t getCurrentVolume() \x7b return volume; \x7d` (line 1347).
The bodies of `setVolume`, `volumeUp`, `volumeDown` are in the absent
`.cpp` file and are modelled from the spec. -/

/-- Modelled from the spec: the body of `SI4735::setVolume` is not under
`src/`. Spec section 4.5: "Volume set clamps to [0, 63]". The requested
volume is a `uint8_t`, modelled as `v % 256` then clamped to 63. -/
def setVolumeValue (v : Nat) : Nat :=
  min (v % 256) 63

/-- Modelled from the spec: the body of `SI4735::volumeUp` is not under
`src/`. Spec section 4.5: "volume up/down are saturating (no wraparound
past bounds)". -/
def volumeUpValue (vol : Nat) : Nat :=
  if vol < 63 then vol + 1 else 63

/-- Modelled from the spec: the body of `SI4735::volumeDown` is not under
`src/`. Saturating decrement at 0. -/
def volumeDownValue (vol : Nat) : Nat :=
  if 0 < vol then vol - 1 else 0

/-! ## Bit-field layouts of the declared frame structures

Every `typedef union` of the header overlays a packed bit-field struct on a
raw byte array. Each layout below lists the declared fields in declaration
order as (C identifier, declared bit width). Packing is low-bit-first in
declaration order (header comment, lines 626-634). -/

/-- Field placements under continuous low-bit-first packing: each field
starts at the bit where the previous one ended. Yields
(name, start bit, width). -/
def contOffsets : Nat → List (String × Nat) → List (String × Nat × Nat)
  | _, [] => []
  | off, f :: fs => (f.1, off, f.2) :: contOffsets (off + f.2) fs

/-- A placed field lies entirely within one byte of the raw byte array. -/
def withinOneByte (off width : Nat) : Bool :=
  off / 8 == (off + width - 1) / 8

/-- Names of the fields of a layout that cross a byte boundary under
continuous low-bit-first packing. -/
def crossingFields (fs : List (String × Nat)) : List String :=
  ((contOffsets 0 fs).filter (fun e => !withinOneByte e.2.1 e.2.2)).map (fun e => e.1)

/-- The placement (start bit, width) of a named field of a layout. -/
def fieldOffset (fs : List (String × Nat)) (n : String) : Option (Nat × Nat) :=
  ((contOffsets 0 fs).find? (fun e => e.1 == n)).map (fun e => e.2)

/-- `si473x_powerup.arg` (header lines 181-194). -/
def si473x_powerup_fields : List (String × Nat) :=
  [("FUNC", 4), ("XOSCEN", 1), ("PATCH", 1), ("GPO2OEN", 1), ("CTSIEN", 1),
   ("OPMODE", 8)]

/-- `si47x_frequency.raw` (header lines 202-209). -/
def si47x_frequency_fields : List (String × Nat) :=
  [("FREQL", 8), ("FREQH", 8)]

/-- `si47x_antenna_capacitor.raw` (header lines 215-222). -/
def si47x_antenna_capacitor_fields : List (String × Nat) :=
  [("ANTCAPL", 8), ("ANTCAPH", 8)]

/-- `si47x_set_frequency.arg` (header lines 231-244). -/
def si47x_set_frequency_fields : List (String × Nat) :=
  [("FAST", 1), ("FREEZE", 1), ("DUMMY1", 4), ("USBLSB", 2),
   ("FREQH", 8), ("FREQL", 8), ("ANTCAPH", 8), ("ANTCAPL", 8)]

/-- `si47x_seek.arg` (header lines 253-262). -/
def si47x_seek_fields : List (String × Nat) :=
  [("RESERVED1", 2), ("WRAP", 1), ("SEEKUP", 1), ("RESERVED2", 4)]

/-- `si47x_status.refined` (header lines 271-283). -/
def si47x_status_fields : List (String × Nat) :=
  [("STCINT", 1), ("DUMMY1", 1), ("RDSINT", 1), ("RSQINT", 1), ("DUMMY2", 2),
   ("ERR", 1), ("CTS", 1)]

/-- `si47x_response_status.resp` (header lines 294-324). -/
def si47x_response_status_fields : List (String × Nat) :=
  [("STCINT", 1), ("DUMMY1", 1), ("RDSINT", 1), ("RSQINT", 1), ("DUMMY2", 2),
   ("ERR", 1), ("CTS", 1),
   ("VALID", 1), ("AFCRL", 1), ("DUMMY3", 5), ("BLTF", 1),
   ("READFREQH", 8), ("READFREQL", 8), ("RSSI", 8), ("SNR", 8), ("MULT", 8),
   ("READANTCAP", 8)]

/-- `si47x_firmware_information.resp` (header lines 335-357). -/
def si47x_firmware_information_fields : List (String × Nat) :=
  [("STCINT", 1), ("DUMMY1", 1), ("RDSINT", 1), ("RSQINT", 1), ("DUMMY2", 2),
   ("ERR", 1), ("CTS", 1),
   ("PN", 8), ("FWMAJOR", 8), ("FWMINOR", 8), ("PATCHH", 8), ("PATCHL", 8),
   ("CMPMAJOR", 8), ("CMPMINOR", 8), ("CHIPREV", 8)]

/-- `si47x_firmware_query_library.resp` (header lines 371-392). -/
def si47x_firmware_query_library_fields : List (String × Nat) :=
  [("STCINT", 1), ("DUMMY1", 1), ("RDSINT", 1), ("RSQINT", 1), ("DUMMY2", 2),
   ("ERR", 1), ("CTS", 1),
   ("PN", 8), ("FWMAJOR", 8), ("FWMINOR", 8), ("RESERVED1", 8), ("RESERVED2", 8),
   ("CHIPREV", 8), ("LIBRARYID", 8)]

/-- `si47x_tune_status.arg` (header lines 403-411). -/
def si47x_tune_status_fields : List (String × Nat) :=
  [("INTACK", 1), ("CANCEL", 1), ("RESERVED2", 6)]

/-- `si47x_property.raw` (header lines 420-427). -/
def si47x_property_fields : List (String × Nat) :=
  [("byteLow", 8), ("byteHigh", 8)]

/-- `si47x_rqs_status.resp` (header lines 441-477). -/
def si47x_rqs_status_fields : List (String × Nat) :=
  [("STCINT", 1), ("DUMMY1", 1), ("RDSINT", 1), ("RSQINT", 1), ("DUMMY2", 2),
   ("ERR", 1), ("CTS", 1),
   ("RSSIILINT", 1), ("RSSIHINT", 1), ("SNRLINT", 1), ("SNRHINT", 1),
   ("MULTLINT", 1), ("MULTHINT", 1), ("DUMMY3", 1), ("BLENDINT", 1),
   ("VALID", 1), ("AFCRL", 1), ("DUMMY4", 1), ("SMUTE", 1), ("DUMMY5", 4),
   ("STBLEND", 7), ("PILOT", 1),
   ("RSSI", 8), ("SNR", 8), ("MULT", 8), ("FREQOFF", 8)]

/-- `si47x_rds_command.arg` (header lines 487-496). -/
def si47x_rds_command_fields : List (String × Nat) :=
  [("INTACK", 1), ("MTFIFO", 1), ("STATUSONLY", 1), ("dummy", 5)]

/-- `si47x_rds_status.resp` (header lines 505-550). -/
def si47x_rds_status_fields : List (String × Nat) :=
  [("STCINT", 1), ("DUMMY1", 1), ("RDSINT", 1), ("RSQINT", 1), ("DUMMY2", 2),
   ("ERR", 1), ("CTS", 1),
   ("RDSRECV", 1), ("RDSSYNCLOST", 1), ("RDSSYNCFOUND", 1), ("DUMMY3", 1),
   ("RDSNEWBLOCKA", 1), ("RDSNEWBLOCKB", 1), ("DUMMY4", 2),
   ("RDSSYNC", 1), ("DUMMY5", 1), ("GRPLOST", 1), ("DUMMY6", 5),
   ("RDSFIFOUSED", 8),
   ("BLOCKAH", 8), ("BLOCKAL", 8), ("BLOCKBH", 8), ("BLOCKBL", 8),
   ("BLOCKCH", 8), ("BLOCKCL", 8), ("BLOCKDH", 8), ("BLOCKDL", 8),
   ("BLED", 2), ("BLEC", 2), ("BLEB", 2), ("BLEA", 2)]

/-- `si47x_rds_int_source.refined` (header lines 560-573). -/
def si47x_rds_int_source_fields : List (String × Nat) :=
  [("RDSRECV", 1), ("RDSSYNCLOST", 1), ("RDSSYNCFOUND", 1), ("DUMMY1", 1),
   ("RDSNEWBLOCKA", 1), ("RDSNEWBLOCKB", 1), ("DUMMY2", 5), ("DUMMY3", 5)]

/-- `si47x_rds_config.arg` (header lines 591-602). -/
def si47x_rds_config_fields : List (String × Nat) :=
  [("RDSEN", 1), ("DUMMY1", 7), ("BLETHD", 2), ("BLETHC", 2), ("BLETHB", 2),
   ("BLETHA", 2)]

/-- `si47x_rds_blockb.group0` (header lines 640-650). -/
def si47x_rds_blockb_group0_fields : List (String × Nat) :=
  [("address", 2), ("DI", 1), ("MS", 1), ("TA", 1), ("programType", 5),
   ("trafficProgramCode", 1), ("versionCode", 1), ("groupType", 4)]

/-- `si47x_rds_blockb.group2` (header lines 651-659). -/
def si47x_rds_blockb_group2_fields : List (String × Nat) :=
  [("address", 4), ("textABFlag", 1), ("programType", 5),
   ("trafficProgramCode", 1), ("versionCode", 1), ("groupType", 4)]

/-- `si47x_rds_blockb.refined` (header lines 660-668). -/
def si47x_rds_blockb_refined_fields : List (String × Nat) :=
  [("content", 4), ("textABFlag", 1), ("programType", 5),
   ("trafficProgramCode", 1), ("versionCode", 1), ("groupType", 4)]

/-- `si47x_rds_date_time.refined` (header lines 710-722). -/
def si47x_rds_date_time_fields : List (String × Nat) :=
  [("offset", 5), ("offset_sense", 1), ("minute1", 2), ("minute2", 4),
   ("hour1", 4), ("hour2", 1), ("mjd", 17)]

/-- `si47x_agc_status.refined` (header lines 736-754). -/
def si47x_agc_status_fields : List (String × Nat) :=
  [("STCINT", 1), ("DUMMY1", 1), ("RDSINT", 1), ("RSQINT", 1), ("DUMMY2", 2),
   ("ERR", 1), ("CTS", 1),
   ("AGCDIS", 1), ("DUMMY", 7), ("AGCIDX", 8)]

/-- `si47x_agc_overrride.arg` (header lines 765-775). -/
def si47x_agc_overrride_fields : List (String × Nat) :=
  [("AGCDIS", 1), ("DUMMY", 7), ("AGCIDX", 8)]

/-- `si47x_bandwidth_config.param` (header lines 792-801). -/
def si47x_bandwidth_config_fields : List (String × Nat) :=
  [("AMCHFLT", 4), ("DUMMY1", 4), ("AMPLFLT", 1), ("DUMMY2", 7)]

/-- `si47x_ssb_mode.param` (header lines 810-822). -/
def si47x_ssb_mode_fields : List (String × Nat) :=
  [("AUDIOBW", 4), ("SBCUTFLT", 4), ("AVC_DIVIDER", 4), ("AVCEN", 1),
   ("SMUTESEL", 1), ("DUMMY1", 1), ("DSP_AFCDIS", 1)]

/-- `si4735_digital_output_format.refined` (header lines 833-843). -/
def si4735_digital_output_format_fields : List (String × Nat) :=
  [("OSIZE", 2), ("OMONO", 1), ("OMODE", 4), ("OFALL", 1), ("dummy", 8)]

/-- Every declared command/response/record bit-field layout of the header,
by struct name. -/
def si4735FrameLayouts : List (String × List (String × Nat)) :=
  [("si473x_powerup", si473x_powerup_fields),
   ("si47x_frequency", si47x_frequency_fields),
   ("si47x_antenna_capacitor", si47x_antenna_capacitor_fields),
   ("si47x_set_frequency", si47x_set_frequency_fields),
   ("si47x_seek", si47x_seek_fields),
   ("si47x_status", si47x_status_fields),
   ("si47x_response_status", si47x_response_status_fields),
   ("si47x_firmware_information", si47x_firmware_information_fields),
   ("si47x_firmware_query_library", si47x_firmware_query_library_fields),
   ("si47x_tune_status", si47x_tune_status_fields),
   ("si47x_property", si47x_property_fields),
   ("si47x_rqs_status", si47x_rqs_status_fields),
   ("si47x_rds_command", si47x_rds_command_fields),
   ("si47x_rds_status", si47x_rds_status_fields),
   ("si47x_rds_int_source", si47x_rds_int_source_fields),
   ("si47x_rds_config", si47x_rds_config_fields),
   ("si47x_rds_blockb.group0", si47x_rds_blockb_group0_fields),
   ("si47x_rds_blockb.group2", si47x_rds_blockb_group2_fields),
   ("si47x_rds_blockb.refined", si47x_rds_blockb_refined_fields),
   ("si47x_rds_date_time", si47x_rds_date_time_fields),
   ("si47x_agc_status", si47x_agc_status_fields),
   ("si47x_agc_overrride", si47x_agc_overrride_fields),
   ("si47x_bandwidth_config", si47x_bandwidth_config_fields),
   ("si47x_ssb_mode", si47x_ssb_mode_fields),
   ("si4735_digital_output_format", si4735_digital_output_format_fields)]

/-- All (struct name, field name) pairs whose field crosses a byte boundary
under continuous low-bit-first packing. -/
def allByteCrossings : List (String × List (String × Nat)) → List (String × String)
  | [] => []
  | s :: rest => ((crossingFields s.2).map (fun n => (s.1, n))) ++ allByteCrossings rest

/-- The response-frame layouts declared in the header: each one starts with
the status byte ("RESP0"). -/
def si4735ResponseLayouts : List (String × List (String × Nat)) :=
  [("si47x_status", si47x_status_fields),
   ("si47x_response_status", si47x_response_status_fields),
   ("si47x_firmware_information", si47x_firmware_information_fields),
   ("si47x_firmware_query_library", si47x_firmware_query_library_fields),
   ("si47x_rqs_status", si47x_rqs_status_fields),
   ("si47x_rds_status", si47x_rds_status_fields),
   ("si47x_agc_status", si47x_agc_status_fields)]

/-- The status flags occupy their canonical positions in the first raw byte:
STCINT bit 0, RDSINT bit 2, RSQINT bit 3, ERR bit 6, CTS bit 7. -/
def statusByteOk (fs : List (String × Nat)) : Bool :=
  fieldOffset fs "STCINT" == some (0, 1) &&
  fieldOffset fs "RDSINT" == some (2, 1) &&
  fieldOffset fs "RSQINT" == some (3, 1) &&
  fieldOffset fs "ERR" == some (6, 1) &&
  fieldOffset fs "CTS" == some (7, 1)

/-! ## Block B field extraction (header lines 639-674; getters at 1481-1483) -/

/-- Extract the bit-field placed at bit `off` with width `width` from a
packed value. -/
def extractField (value off width : Nat) : Nat :=
  value / 2 ^ off % 2 ^ width

/-- The 16-bit block B value assembled from its `raw` view
(header lines 669-673): `lowValue` is the first byte (bits 0-7),
`highValue` the second (bits 8-15). The RDS status response delivers
them as `BLOCKBH` / `BLOCKBL` (header lines 533-534). -/
def blockbValue (BLOCKBH BLOCKBL : Nat) : Nat :=
  BLOCKBL % 256 + 256 * (BLOCKBH % 256)

/-- Modelled from the spec: the body of `SI4735::getRdsGroupType`
(declared at header line 1481) is not under `src/`; it returns the
`groupType` field of `si47x_rds_blockb.refined`, whose placement is fixed
by the declared layout (header lines 660-668). -/
def getRdsGroupType (BLOCKBH BLOCKBL : Nat) : Nat :=
  match fieldOffset si47x_rds_blockb_refined_fields "groupType" with
  | some p => extractField (blockbValue BLOCKBH BLOCKBL) p.1 p.2
  | none => 0

/-- Modelled from the spec: the body of `SI4735::getRdsVersionCode`
(declared at header line 1483) is not under `src/`; it returns the
`versionCode` field of `si47x_rds_blockb.refined` per the declared layout. -/
def getRdsVersionCode (BLOCKBH BLOCKBL : Nat) : Nat :=
  match fieldOffset si47x_rds_blockb_refined_fields "versionCode" with
  | some p => extractField (blockbValue BLOCKBH BLOCKBL) p.1 p.2
  | none => 0

/-! ## RDS stream assembler (header lines 893-907, 943-945, 1393-1495)

The header declares the assembler state: `rds_buffer2A[65]`, `rds_buffer2B[33]`,
`rds_buffer0A[9]`, `rds_time[20]`, and `lastTextFlagAB`, together with the
clear methods `clearRdsBuffer2A/2B/0A` and the ingestion entry points.
The ingestion bodies are in the absent `.cpp` file; the routing below is
modelled from the spec, section 4.4. -/

/-- An RDS group: four 16-bit blocks, each with its 2-bit error-correction
grade (0 = clean ... 3 = uncorrectable), as delivered by the
`si47x_rds_status` response (header lines 531-547). -/
structure RdsGroup where
  blockA : Nat
  blockB : Nat
  blockC : Nat
  blockD : Nat
  bleA : Nat
  bleB : Nat
  bleC : Nat
  bleD : Nat
  deriving DecidableEq, Repr

/-- The assembled date/time record, with the fields of
`si47x_rds_date_time.refined` (header lines 710-722), minute and hour
reunited from their split halves. -/
structure RdsDateTime where
  mjd : Nat
  hour : Nat
  minute : Nat
  offset_sense : Nat
  offset : Nat
  deriving DecidableEq, Repr

/-- The RDS assembler state owned by the `SI4735` object
(header lines 893-907). Buffers are slot-indexed: 4 two-character slots
for the station name (type 0), 16 four-character slots for the long radio
text (type 2A), 16 two-character slots for the short radio text (type 2B).
The per-variant text A/B flags start unset. -/
structure RdsState where
  buffer0A : List (Option (Nat × Nat))
  buffer2A : List (Option (Nat × Nat × Nat × Nat))
  buffer2B : List (Option (Nat × Nat))
  dateTime : Option RdsDateTime
  flag2A : Option Nat
  flag2B : Option Nat
  deriving DecidableEq, Repr

/-- `clearRdsBuffer0A` (header line 945): all station-name slots empty. -/
def clearRdsBuffer0A : List (Option (Nat × Nat)) := List.replicate 4 none

/-- `clearRdsBuffer2A` (header line 943): all long radio-text slots empty. -/
def clearRdsBuffer2A : List (Option (Nat × Nat × Nat × Nat)) := List.replicate 16 none

/-- `clearRdsBuffer2B` (header line 944): all short radio-text slots empty. -/
def clearRdsBuffer2B : List (Option (Nat × Nat)) := List.replicate 16 none

/-- The empty assembler state created at RDS-subsystem-init (`RdsInit`,
header line 1393). -/
def rdsInitState : RdsState :=
  { buffer0A := clearRdsBuffer0A, buffer2A := clearRdsBuffer2A,
    buffer2B := clearRdsBuffer2B, dateTime := none,
    flag2A := none, flag2B := none }

/-- High byte of a 16-bit block. -/
def hiByte (x : Nat) : Nat := x / 256 % 256

/-- Low byte of a 16-bit block. -/
def loByte (x : Nat) : Nat := x % 256

/-- The group-type code of a group: `groupType` of block B (bits 12-15,
per `si47x_rds_blockb`). -/
def rdsGroupTypeOf (g : RdsGroup) : Nat := extractField g.blockB 12 4

/-- The version code of a group: `versionCode` of block B (bit 11);
0 = A, 1 = B. -/
def rdsVersionOf (g : RdsGroup) : Nat := extractField g.blockB 11 1

/-- The text A/B toggle flag of a type 2 group: `textABFlag` of block B
(bit 4, per `si47x_rds_blockb.group2`). -/
def rdsTextFlagOf (g : RdsGroup) : Nat := extractField g.blockB 4 1

/-- The 2-bit station-name segment address of a type 0 group
(`group0.address`, bits 0-1). -/
def rdsAddr0Of (g : RdsGroup) : Nat := extractField g.blockB 0 2

/-- The 4-bit radio-text segment address of a type 2 group
(`group2.address`, bits 0-3). -/
def rdsAddr2Of (g : RdsGroup) : Nat := extractField g.blockB 0 4

/-- The four radio-text characters of a 2A group: two from block C, two
from block D. -/
def rdsChars4Of (g : RdsGroup) : Nat × Nat × Nat × Nat :=
  (hiByte g.blockC, loByte g.blockC, hiByte g.blockD, loByte g.blockD)

/-- The two radio-text characters of a 2B group (block D only). -/
def rdsChars2Of (g : RdsGroup) : Nat × Nat :=
  (hiByte g.blockD, loByte g.blockD)

/-- Modelled from the spec: the date/time extraction of a 4A group, whose
code is in the absent `.cpp` file. Spec section 4.4: fields for modified
day code, hour, minute and local offset are extracted from blocks B, C, D
per the fixed bit layout (the record fields are those of
`si47x_rds_date_time`): mjd = low 2 bits of B followed by high 15 bits of
C; hour = low bit of C followed by high 4 bits of D; minute = next 6 bits
of D; offset sign and 5-bit offset in the low 6 bits of D. -/
def rdsDateTimeOf (g : RdsGroup) : RdsDateTime :=
  { mjd := g.blockB % 4 * 32768 + g.blockC / 2 % 32768,
    hour := g.blockC % 2 * 16 + extractField g.blockD 12 4,
    minute := extractField g.blockD 6 6,
    offset_sense := extractField g.blockD 5 1,
    offset := extractField g.blockD 0 5 }

/-- Grade 3 means uncorrectable (header lines 539-543). -/
def bleOk (grade : Nat) : Prop := grade % 4 ≠ 3

instance (grade : Nat) : Decidable (bleOk grade) := by
  unfold bleOk; infer_instance

/-- Modelled from the spec: the ingestion routing of one RDS group
(the bodies of `getRdsStatus` post-processing, `getRdsText0A/2A/2B` and
`getRdsTime` are in the absent `.cpp` file). Spec section 4.4:
route by group type and version; a group whose error grade is
uncorrectable on a structurally required block is discarded; segment
writes are last-write-wins per address; a toggle of the text A/B flag
clears the affected buffer before the write, the 2A and 2B flag states
being independent; 4A overwrites the date/time record wholesale; other
types are ignored. -/
def rdsIngest (g : RdsGroup) (s : RdsState) : RdsState :=
  if rdsGroupTypeOf g = 0 then
    if bleOk g.bleB ∧ bleOk g.bleD then
      { s with buffer0A := s.buffer0A.set (rdsAddr0Of g) (some (rdsChars2Of g)) }
    else s
  else if rdsGroupTypeOf g = 2 ∧ rdsVersionOf g = 0 then
    if bleOk g.bleB ∧ bleOk g.bleC ∧ bleOk g.bleD then
      if s.flag2A = some (rdsTextFlagOf g) then
        { s with buffer2A := s.buffer2A.set (rdsAddr2Of g) (some (rdsChars4Of g)) }
      else
        { s with buffer2A := clearRdsBuffer2A.set (rdsAddr2Of g) (some (rdsChars4Of g)),
                 flag2A := some (rdsTextFlagOf g) }
    else s
  else if rdsGroupTypeOf g = 2 ∧ rdsVersionOf g = 1 then
    if bleOk g.bleB ∧ bleOk g.bleD then
      if s.flag2B = some (rdsTextFlagOf g) then
        { s with buffer2B := s.buffer2B.set (rdsAddr2Of g) (some (rdsChars2Of g)) }
      else
        { s with buffer2B := clearRdsBuffer2B.set (rdsAddr2Of g) (some (rdsChars2Of g)),
                 flag2B := some (rdsTextFlagOf g) }
    else s
  else if rdsGroupTypeOf g = 4 ∧ rdsVersionOf g = 0 then
    if bleOk g.bleB ∧ bleOk g.bleC ∧ bleOk g.bleD then
      { s with dateTime := some (rdsDateTimeOf g) }
    else s
  else s

/-! ## Receiver state and public operations (header lines 890-936, 1343-1642) -/

/-- The Receiver State fields of the `SI4735` object (header lines
902-934), with the member names of the source. -/
structure ReceiverState where
  currentTune : Nat
  currentWorkFrequency : Nat
  currentMinimumFrequency : Nat
  currentMaximumFrequency : Nat
  currentStep : Nat
  volume : Nat
  deviceAddress : Nat
  deriving DecidableEq, Repr

/-- The freshly constructed controller: the header gives in-class
initializers `deviceAddress = SI473X_ADDR_SEN_LOW` (line 902) and
`volume = 32` (line 934); the remaining modelled members have no
initializer and are modelled as 0. -/
def initialState : ReceiverState :=
  { currentTune := 0, currentWorkFrequency := 0,
    currentMinimumFrequency := 0, currentMaximumFrequency := 0,
    currentStep := 0, volume := 32,
    deviceAddress := SI473X_ADDR_SEN_LOW }

/-- `getCurrentVolume` (header line 1347): `return volume;`. -/
def getCurrentVolume (s : ReceiverState) : Nat := s.volume

/-- `getCurrentFrequency` (header lines 1623-1626):
`return this->currentWorkFrequency;`. -/
def getCurrentFrequency (s : ReceiverState) : Nat := s.currentWorkFrequency

/-- The public state-mutating operations the claims quantify over. -/
inductive Op where
  | setVolumeOp (v : Nat)
  | volumeUpOp
  | volumeDownOp
  | setFrequencyOp (freq : Nat)
  | setFrequencyStepOp (step : Nat)
  | setBandLimitsOp (bottom top : Nat)
  | setModeOp (mode : Nat)
  | setDeviceI2CAddressOp (senPinHigh : Bool)
  | setDeviceOtherI2CAddressOp (addr : Nat)
  deriving DecidableEq, Repr

/-- One public operation on the Receiver State.
`setFrequencyStepOp` is `setFrequencyStep` (header lines 1607-1610,
inline: `this->currentStep = step;`). The remaining bodies are in the
absent `.cpp` file and are modelled from the spec:
volume operations per spec section 4.5 (clamp to [0, 63], saturating
up/down); `setFrequencyOp`, `setBandLimitsOp`, `setModeOp` store their
16-bit / 8-bit arguments in the corresponding members; per spec section 6
every bus transfer is addressed to one of the two fixed strap addresses,
so `setDeviceI2CAddressOp` selects `SI473X_ADDR_SEN_HIGH` or
`SI473X_ADDR_SEN_LOW` by the strap pin state, and
`setDeviceOtherI2CAddressOp` accepts only one of those two addresses. -/
def applyOp (s : ReceiverState) : Op → ReceiverState
  | Op.setVolumeOp v => { s with volume := setVolumeValue v }
  | Op.volumeUpOp => { s with volume := volumeUpValue s.volume }
  | Op.volumeDownOp => { s with volume := volumeDownValue s.volume }
  | Op.setFrequencyOp f => { s with currentWorkFrequency := f % 65536 }
  | Op.setFrequencyStepOp st => { s with currentStep := st % 65536 }
  | Op.setBandLimitsOp b t =>
      { s with currentMinimumFrequency := b % 65536,
               currentMaximumFrequency := t % 65536 }
  | Op.setModeOp m => { s with currentTune := m % 256 }
  | Op.setDeviceI2CAddressOp pin =>
      { s with deviceAddress :=
          if pin then SI473X_ADDR_SEN_HIGH else SI473X_ADDR_SEN_LOW }
  | Op.setDeviceOtherI2CAddressOp a =>
      { s with deviceAddress :=
          if a % 256 = SI473X_ADDR_SEN_LOW ∨ a % 256 = SI473X_ADDR_SEN_HIGH
          then a % 256 else s.deviceAddress }

/-- Run a sequence of public operations from a state. -/
def runOps (s : ReceiverState) : List Op → ReceiverState
  | [] => s
  | o :: ops => runOps (applyOp s o) ops

/-- Whether an operation is one of the three volume operations. -/
def touchesVolume : Op → Bool
  | Op.setVolumeOp _ => true
  | Op.volumeUpOp => true
  | Op.volumeDownOp => true
  | _ => false

/-! ## Handshake controller (`waitToSend`, header lines 950, 155-157) -/

/-- Result of a command call. -/
inductive CmdResult where
  | ok
  | timeoutErr
  deriving DecidableEq, Repr

/-- Outcome of a command call: the Receiver State after the call, the
result, and the elapsed wait in microseconds. -/
structure CmdOutcome where
  state : ReceiverState
  result : CmdResult
  elapsedMicros : Nat
  deriving DecidableEq, Repr

/-- Modelled from the spec: the body of `SI4735::waitToSend`
(declared at header line 950) is not under `src/`. Per spec section 4.2
the controller polls the ready (CTS) signal at a bounded interval of
`MIN_DELAY_WAIT_SEND_LOOP` microseconds (header line 157); a fixed
maximum number of polls bounds the loop. `pollCTS ready fuel t` returns
the poll index at which the ready signal was first observed, starting
from poll `t`, or `none` once the fuel is exhausted. -/
def pollCTS (ready : Nat → Bool) : Nat → Nat → Option Nat
  | 0, _ => none
  | fuel + 1, t => if ready t then some t else pollCTS ready fuel (t + 1)

/-- The configured maximum wait in microseconds for a poll budget. -/
def maxWaitMicros (maxPolls : Nat) : Nat :=
  maxPolls * MIN_DELAY_WAIT_SEND_LOOP

/-- Modelled from the spec: a command call through the handshake
controller (spec sections 4.2 and 7). The command is issued only once the
ready signal is observed; its effect on the Receiver State is `effect`.
If the ready signal is never observed within the poll budget, the call
aborts with a Timeout result and the Receiver State is left at its last
confirmed value. -/
def commandCall (s : ReceiverState) (ready : Nat → Bool) (maxPolls : Nat)
    (effect : ReceiverState → ReceiverState) : CmdOutcome :=
  match pollCTS ready maxPolls 0 with
  | some t =>
      { state := effect s, result := CmdResult.ok,
        elapsedMicros := (t + 1) * MIN_DELAY_WAIT_SEND_LOOP }
  | none =>
      { state := s, result := CmdResult.timeoutErr,
        elapsedMicros := maxWaitMicros maxPolls }

/-! ## Helper lemmas -/

/-- When the ready signal never asserts, the poll loop exhausts its fuel
and reports no ready observation. -/
theorem pollCTS_never_none (ready : Nat → Bool) (h : ∀ t, ready t = false) :
    ∀ fuel t, pollCTS ready fuel t = none := by
  intro fuel
  induction fuel with
  | zero => intro t; rfl
  | succ n ih => intro t; simp [pollCTS, h t, ih]

/-- The device address stays among the two strap addresses along any run. -/
theorem runOps_deviceAddress_invariant (ops : List Op) :
    ∀ s : ReceiverState,
      s.deviceAddress = SI473X_ADDR_SEN_LOW ∨ s.deviceAddress = SI473X_ADDR_SEN_HIGH →
      (runOps s ops).deviceAddress = SI473X_ADDR_SEN_LOW ∨
        (runOps s ops).deviceAddress = SI473X_ADDR_SEN_HIGH := by
  induction ops with
  | nil => intro s h; exact h
  | cons o ops ih =>
    intro s h
    have hstep : (applyOp s o).deviceAddress = SI473X_ADDR_SEN_LOW ∨
        (applyOp s o).deviceAddress = SI473X_ADDR_SEN_HIGH := by
      cases o with
      | setDeviceI2CAddressOp pin => cases pin <;> simp [applyOp]
      | setDeviceOtherI2CAddressOp a =>
          by_cases hc : a % 256 = SI473X_ADDR_SEN_LOW ∨ a % 256 = SI473X_ADDR_SEN_HIGH
          · simp only [applyOp, if_pos hc]
            exact hc
          · simpa [applyOp, hc] using h
      | _ => simpa [applyOp] using h
    exact ih (applyOp s o) hstep

/-- Operation sequences free of volume operations leave the volume field
untouched. -/
theorem runOps_volume_preserved (ops : List Op) :
    ∀ s : ReceiverState, (ops.all fun o => !touchesVolume o) = true →
      (runOps s ops).volume = s.volume := by
  induction ops with
  | nil => intro s _; rfl
  | cons o ops ih =>
    intro s h
    simp only [List.all_cons, Bool.and_eq_true] at h
    have hrest : (runOps (applyOp s o) ops).volume = (applyOp s o).volume := ih _ h.2
    have h1 := h.1
    rw [show runOps s (o :: ops) = runOps (applyOp s o) ops from rfl, hrest]
    cases o <;> simp [applyOp, touchesVolume] at h1 ⊢

/-! ## Claim theorems -/

/-- C1: storing a 16-bit frequency through the two-byte FREQL/FREQH
representation of `si47x_frequency` and reading it back reconstructs the
value exactly; in particular the full tune round trip (load the
`si47x_set_frequency` argument bytes, device echoes READFREQH/READFREQL,
reassemble) is the identity on every 16-bit frequency. -/
theorem frequency_round_trip (flags antcapH antcapL freq : Nat) (h : freq < 65536) :
    si47x_frequency_unpack (si47x_frequency_pack freq) = freq ∧
    getFrequencyFrom (deviceEchoReadFreq (setFrequencyArgs flags freq antcapH antcapL)).1
      (deviceEchoReadFreq (setFrequencyArgs flags freq antcapH antcapL)).2 = freq := by
  constructor
  · simp only [si47x_frequency_unpack, si47x_frequency_pack]
    omega
  · simp only [getFrequencyFrom, deviceEchoReadFreq, setFrequencyArgs,
      si47x_frequency_pack, si47x_frequency_unpack, List.getD, List.get?,
      Option.getD_some]
    omega

/-- Witness for C1 at band-spanning inputs: 10390 and 8750 (FM, 10 kHz
units) and 1710 (AM top, 1 kHz units). -/
theorem frequency_round_trip_witness :
    (10390 < 65536 ∧
      si47x_frequency_unpack (si47x_frequency_pack 10390) = 10390) ∧
    (8750 < 65536 ∧
      getFrequencyFrom (deviceEchoReadFreq (setFrequencyArgs 0 8750 0 0)).1
        (deviceEchoReadFreq (setFrequencyArgs 0 8750 0 0)).2 = 8750) ∧
    (1710 < 65536 ∧
      si47x_frequency_unpack (si47x_frequency_pack 1710) = 1710) :=
  ⟨⟨by decide, (frequency_round_trip 0 0 0 10390 (by decide)).1⟩,
   ⟨by decide, (frequency_round_trip 0 0 0 8750 (by decide)).2⟩,
   ⟨by decide, (frequency_round_trip 0 0 0 1710 (by decide)).1⟩⟩

/-- C2: when the ready (CTS) signal never asserts, a command call returns
the Timeout result after exactly the configured maximum wait (the bounded
poll budget times `MIN_DELAY_WAIT_SEND_LOOP`), never later, and the whole
Receiver State is unchanged from its value before the call. -/
theorem command_timeout_atomic (s : ReceiverState) (ready : Nat → Bool)
    (maxPolls : Nat) (effect : ReceiverState → ReceiverState)
    (h : ∀ t, ready t = false) :
    commandCall s ready maxPolls effect =
      { state := s, result := CmdResult.timeoutErr,
        elapsedMicros := maxWaitMicros maxPolls } ∧
    (commandCall s ready maxPolls effect).elapsedMicros ≤ maxWaitMicros maxPolls := by
  have hp := pollCTS_never_none ready h maxPolls 0
  constructor
  · unfold commandCall
    rw [hp]
  · unfold commandCall
    rw [hp]

/-- Witness for C2: a ready signal that never asserts, five polls allowed. -/
theorem command_timeout_atomic_witness :
    (∀ t : Nat, (fun _ : Nat => false) t = false) ∧
    commandCall initialState (fun _ : Nat => false) 5 id =
      { state := initialState, result := CmdResult.timeoutErr,
        elapsedMicros := maxWaitMicros 5 } :=
  ⟨fun _ => rfl,
   (command_timeout_atomic initialState (fun _ : Nat => false) 5 id (fun _ => rfl)).1⟩

/-- C3: `setVolume` clamps every requested volume into [0, 63]; from every
in-range starting volume, `volumeUp` at 63 stays at 63 and `volumeDown` at
0 stays at 0, and neither ever leaves the range (saturating, no
wraparound). -/
theorem volume_clamp_saturate (s : ReceiverState) (req : Nat) (h : s.volume ≤ 63) :
    (applyOp s (Op.setVolumeOp req)).volume ≤ 63 ∧
    (s.volume = 63 → (applyOp s Op.volumeUpOp).volume = 63) ∧
    (s.volume = 0 → (applyOp s Op.volumeDownOp).volume = 0) ∧
    (applyOp s Op.volumeUpOp).volume ≤ 63 ∧
    (applyOp s Op.volumeDownOp).volume ≤ 63 := by
  simp only [applyOp, setVolumeValue, volumeUpValue, volumeDownValue]
  refine ⟨?_, ?_, ?_, ?_, ?_⟩
  · simp only [Nat.min_def]
    split_ifs <;> omega
  all_goals split_ifs <;> omega

/-- Witness for C3 at the two saturation bounds and an out-of-range
request. -/
theorem volume_clamp_saturate_witness :
    ({ initialState with volume := 63 }.volume ≤ 63 ∧
      (applyOp { initialState with volume := 63 } Op.volumeUpOp).volume = 63) ∧
    ({ initialState with volume := 0 }.volume ≤ 63 ∧
      (applyOp { initialState with volume := 0 } Op.volumeDownOp).volume = 0) ∧
    (initialState.volume ≤ 63 ∧
      (applyOp initialState (Op.setVolumeOp 200)).volume ≤ 63) :=
  ⟨⟨by decide,
    (volume_clamp_saturate { initialState with volume := 63 } 0 (by decide)).2.1 (by decide)⟩,
   ⟨by decide,
    (volume_clamp_saturate { initialState with volume := 0 } 0 (by decide)).2.2.1 (by decide)⟩,
   ⟨by decide,
    (volume_clamp_saturate initialState 200 (by decide)).1⟩⟩

/-- C4: RDS ingestion is idempotent per group: feeding the same group
twice leaves exactly the assembler state that feeding it once produces
(segment writes are last-write-wins for a given segment address). -/
theorem rdsIngest_idem (g : RdsGroup) (s : RdsState) :
    rdsIngest g (rdsIngest g s) = rdsIngest g s := by
  by_cases h0 : rdsGroupTypeOf g = 0
  · by_cases hb : bleOk g.bleB ∧ bleOk g.bleD
    · simp [rdsIngest, h0, hb, List.set_set]
    · simp [rdsIngest, h0, hb]
  · by_cases h2a : rdsGroupTypeOf g = 2 ∧ rdsVersionOf g = 0
    · by_cases hb : bleOk g.bleB ∧ bleOk g.bleC ∧ bleOk g.bleD
      · by_cases hf : s.flag2A = some (rdsTextFlagOf g)
        · simp [rdsIngest, h0, h2a, hb, hf, List.set_set]
        · simp [rdsIngest, h0, h2a, hb, hf, List.set_set]
      · simp [rdsIngest, h0, h2a, hb]
    · by_cases h2b : rdsGroupTypeOf g = 2 ∧ rdsVersionOf g = 1
      · by_cases hb : bleOk g.bleB ∧ bleOk g.bleD
        · by_cases hf : s.flag2B = some (rdsTextFlagOf g)
          · simp [rdsIngest, h0, h2a, h2b, hb, hf, List.set_set]
          · simp [rdsIngest, h0, h2a, h2b, hb, hf, List.set_set]
        · simp [rdsIngest, h0, h2a, h2b, hb]
      · by_cases h4 : rdsGroupTypeOf g = 4 ∧ rdsVersionOf g = 0
        · by_cases hb : bleOk g.bleB ∧ bleOk g.bleC ∧ bleOk g.bleD
          · simp [rdsIngest, h0, h2a, h2b, h4, hb]
          · simp [rdsIngest, h0, h2a, h2b, h4, hb]
        · simp [rdsIngest, h0, h2a, h2b, h4]

/-- C5 counterexample: the claim places the 4-bit group-type code and the
1-bit version code in the low bits of block B, so it entails that
`getRdsGroupType` returns the low nibble of the 16-bit block B value.
The declared layout of `si47x_rds_blockb` refutes this: for block B value
4096 (BLOCKBH = 16, BLOCKBL = 0) the low nibble is 0 while the getter,
reading bits 12-15, returns 1. -/
theorem rds_blockb_low_bits_counterexample :
    ¬ (∀ BLOCKBH BLOCKBL : Nat,
        getRdsGroupType BLOCKBH BLOCKBL = blockbValue BLOCKBH BLOCKBL % 16 ∧
        getRdsVersionCode BLOCKBH BLOCKBL = blockbValue BLOCKBH BLOCKBL / 16 % 2) := by
  intro h
  have h1 : getRdsGroupType 16 0 = 1 := by decide
  have h2 : blockbValue 16 0 % 16 = 0 := by decide
  have h3 := (h 16 0).1
  rw [h1, h2] at h3
  exact absurd h3 (by decide)

/-- C5 amended: the group-type code occupies the four most significant
bits (bits 12-15) and the version code bit 11 of the 16-bit block B value,
per the declaration order of `si47x_rds_blockb`; `getRdsGroupType` and
`getRdsVersionCode` return exactly those fields. -/
theorem rds_blockb_field_extraction (BLOCKBH BLOCKBL : Nat) :
    getRdsGroupType BLOCKBH BLOCKBL = blockbValue BLOCKBH BLOCKBL / 4096 ∧
    getRdsVersionCode BLOCKBH BLOCKBL = blockbValue BLOCKBH BLOCKBL / 2048 % 2 := by
  have hv : blockbValue BLOCKBH BLOCKBL < 65536 := by
    unfold blockbValue; omega
  have hg : getRdsGroupType BLOCKBH BLOCKBL =
      extractField (blockbValue BLOCKBH BLOCKBL) 12 4 := rfl
  have hvc : getRdsVersionCode BLOCKBH BLOCKBL =
      extractField (blockbValue BLOCKBH BLOCKBL) 11 1 := rfl
  rw [hg, hvc]
  unfold extractField
  norm_num
  omega

/-- C6: the radio-text toggle-flag states for 2A and 2B groups are
independent: a flag toggle observed on a 2A group clears only the 2A
(long-form) buffer before the write and leaves the 2B buffer and the 2B
flag state unchanged, and symmetrically for 2B. -/
theorem rds_text_flag_independent (g : RdsGroup) (s : RdsState)
    (hgt : rdsGroupTypeOf g = 2) :
    (rdsVersionOf g = 0 → bleOk g.bleB ∧ bleOk g.bleC ∧ bleOk g.bleD →
      s.flag2A ≠ some (rdsTextFlagOf g) →
      (rdsIngest g s).buffer2A =
        clearRdsBuffer2A.set (rdsAddr2Of g) (some (rdsChars4Of g)) ∧
      (rdsIngest g s).buffer2B = s.buffer2B ∧
      (rdsIngest g s).flag2B = s.flag2B) ∧
    (rdsVersionOf g = 1 → bleOk g.bleB ∧ bleOk g.bleD →
      s.flag2B ≠ some (rdsTextFlagOf g) →
      (rdsIngest g s).buffer2B =
        clearRdsBuffer2B.set (rdsAddr2Of g) (some (rdsChars2Of g)) ∧
      (rdsIngest g s).buffer2A = s.buffer2A ∧
      (rdsIngest g s).flag2A = s.flag2A) := by
  constructor
  · intro hv hb hf
    simp [rdsIngest, hgt, hv, hb, hf]
  · intro hv hb hf
    simp [rdsIngest, hgt, hv, hb, hf]

/-- Witness for C6: a 2A group (block B = 8208: group type 2, version A,
text flag 1, address 0) against the fresh assembler state, whose 2A flag
is unset and therefore toggles. -/
theorem rds_text_flag_independent_witness :
    rdsGroupTypeOf ⟨0, 8208, 16706, 17220, 0, 0, 0, 0⟩ = 2 ∧
    ((rdsIngest ⟨0, 8208, 16706, 17220, 0, 0, 0, 0⟩ rdsInitState).buffer2A =
        clearRdsBuffer2A.set 0 (some (65, 66, 67, 68)) ∧
      (rdsIngest ⟨0, 8208, 16706, 17220, 0, 0, 0, 0⟩ rdsInitState).buffer2B =
        rdsInitState.buffer2B ∧
      (rdsIngest ⟨0, 8208, 16706, 17220, 0, 0, 0, 0⟩ rdsInitState).flag2B =
        rdsInitState.flag2B) := by
  refine ⟨by decide, ?_⟩
  have h := rds_text_flag_independent ⟨0, 8208, 16706, 17220, 0, 0, 0, 0⟩
    rdsInitState (by decide)
  have h2 := h.1 (by decide) (by decide) (by decide)
  refine ⟨?_, h2.2.1, h2.2.2⟩
  have ha : rdsAddr2Of ⟨0, 8208, 16706, 17220, 0, 0, 0, 0⟩ = 0 := by decide
  have hc : rdsChars4Of ⟨0, 8208, 16706, 17220, 0, 0, 0, 0⟩ = (65, 66, 67, 68) := by decide
  rw [← ha, ← hc]
  exact h2.1

/-- C7 counterexample: under the claimed continuous low-bit-first packing,
the `programType` field of `si47x_rds_blockb` starts at bit 5 with width 5
and therefore spans bytes 0 and 1 of the raw array: the layout is in the
declared frame list and its crossing-field set is not empty. -/
theorem byte_crossing_counterexample :
    ("si47x_rds_blockb.refined", si47x_rds_blockb_refined_fields) ∈ si4735FrameLayouts ∧
    fieldOffset si47x_rds_blockb_refined_fields "programType" = some (5, 5) ∧
    crossingFields si47x_rds_blockb_refined_fields = ["programType"] := by
  decide

/-- C7 amended: under continuous low-bit-first packing every named
sub-field of every declared frame layout lies within a single byte of the
raw byte array, except exactly the fields declared over wider storage
units or reserved padding: `DUMMY2` of `si47x_rds_int_source`,
`programType` in the three views of `si47x_rds_blockb`, and `mjd` of
`si47x_rds_date_time`. -/
theorem byte_boundary_amended :
    allByteCrossings si4735FrameLayouts =
      [("si47x_rds_int_source", "DUMMY2"),
       ("si47x_rds_blockb.group0", "programType"),
       ("si47x_rds_blockb.group2", "programType"),
       ("si47x_rds_blockb.refined", "programType"),
       ("si47x_rds_date_time", "mjd")] := by
  decide

/-- C8: every declared response layout begins with the status byte, and
the flags STCINT, RDSINT, RSQINT, ERR and CTS occupy the identical bit
positions 0, 2, 3, 6 and 7 of that first raw byte in every one of them. -/
theorem response_status_byte_uniform :
    si4735ResponseLayouts.all (fun s => statusByteOk s.2) = true := by
  decide

/-- C9: under every sequence of public operations from the freshly
constructed controller, the stored device address is one of the two fixed
strap addresses 0x11 (`SI473X_ADDR_SEN_LOW`) and 0x63
(`SI473X_ADDR_SEN_HIGH`). -/
theorem device_address_two_values (ops : List Op) :
    (runOps initialState ops).deviceAddress = SI473X_ADDR_SEN_LOW ∨
    (runOps initialState ops).deviceAddress = SI473X_ADDR_SEN_HIGH :=
  runOps_deviceAddress_invariant ops initialState (Or.inl rfl)

/-- C10: before any call to `setVolume`, `volumeUp` or `volumeDown`,
`getCurrentVolume` returns 32: the `volume` member carries the in-class
initializer 32, and no other public operation touches it. -/
theorem initial_volume_32 (ops : List Op)
    (h : (ops.all fun o => !touchesVolume o) = true) :
    getCurrentVolume (runOps initialState ops) = 32 := by
  unfold getCurrentVolume
  rw [runOps_volume_preserved ops initialState h]
  rfl

/-- Witness for C10: a run that tunes and changes mode but never calls a
volume operation still reads volume 32. -/
theorem initial_volume_32_witness :
    (([Op.setFrequencyOp 10390, Op.setModeOp 0].all fun o => !touchesVolume o) = true) ∧
    getCurrentVolume (runOps initialState [Op.setFrequencyOp 10390, Op.setModeOp 0]) = 32 :=
  ⟨by decide, initial_volume_32 [Op.setFrequencyOp 10390, Op.setModeOp 0] (by decide)⟩

end SI4735
